import Mathlib

/-
Verification of the Astron front-end behavior layer (src/main.js).

The JS source is shallowly embedded: DOM class lists become `List String`,
element presence becomes `Option`, JS `Set` membership becomes list
membership, the rAF-driven counter loop becomes a fuel-indexed recursion
over exact rational arithmetic, and handlers that can throw on a null
element return `Except`.
-/

/-- JS `classList.add c`: appends the class when it is not already present. -/
def classAdd (cs : List String) (c : String) : List String :=
  if c ∈ cs then cs else cs ++ [c]

/-- JS `classList.remove c`: removes every occurrence of the class. -/
def classRemove (cs : List String) (c : String) : List String :=
  cs.filter (fun x => x != c)

/-- A lazy image element (`img.lazy-img`): its `data-src` attribute (absent =
`none`), its current `src`, and its class list. -/
structure LazyImg where
  dataSrc : Option String
  src : Option String
  classes : List String
  deriving DecidableEq

/-- `LazyLoader.loadImage` (src/main.js:38-60). The guard `if (!src) return`
fires when `data-src` is absent (`null`) or the empty string (both falsy).
Otherwise a preload of `src` is started; on preload success the image gets
`src`, the `loaded` class, and loses `data-src`; on preload failure it still
gets the `loaded` class. The returned Bool records whether a preload was
started; `preloadSucceeds` is the outcome of that preload when one starts. -/
def LazyLoader.loadImage (img : LazyImg) (preloadSucceeds : Bool) : LazyImg × Bool :=
  match img.dataSrc with
  | none => (img, false)
  | some s =>
    if s = "" then (img, false)
    else if preloadSucceeds then
      ({ dataSrc := none, src := some s, classes := classAdd img.classes "loaded" }, true)
    else
      ({ img with classes := classAdd img.classes "loaded" }, true)

/-- `LazyLoader.loadAllImages` (src/main.js:62-64): calls `loadImage` on every
managed image, in document order. -/
def LazyLoader.loadAllImages (imgs : List LazyImg) (ok : Bool) : List (LazyImg × Bool) :=
  imgs.map (fun i => LazyLoader.loadImage i ok)

/-- `LazyLoader.init` (src/main.js:16-27): when `IntersectionObserver` exists
every image is merely observed (untouched, no preload started yet: `(i, false)`);
in the fallback branch `loadAllImages` runs immediately and synchronously. -/
def LazyLoader.init (hasObserver : Bool) (imgs : List LazyImg) (ok : Bool) :
    List (LazyImg × Bool) :=
  if hasObserver then imgs.map (fun i => (i, false))
  else LazyLoader.loadAllImages imgs ok

/-- Result of `StatsCounter.init` (src/main.js:195-203): which stat elements
(by index) were handed to the observer, and which had their counter animation
started during init itself. -/
structure StatsInitResult where
  observed : List Nat
  animationsStarted : List Nat
  deriving DecidableEq

/-- `StatsCounter.init` (src/main.js:195-203): when `IntersectionObserver`
exists each stat element is observed and nothing is animated yet. The method
has no `else` branch, so without the observer the body does nothing at all. -/
def StatsCounter.init (hasObserver : Bool) (n : Nat) : StatsInitResult :=
  if hasObserver then { observed := List.range n, animationsStarted := [] }
  else { observed := [], animationsStarted := [] }

/-- A browser event-listener registration performed during a component's
`init`: a `scroll` listener on `window`, a `click` listener on a specific
element, or a `click` listener on `document`. -/
inductive Reg where
  | windowScroll
  | elementClick (id : String)
  | documentClick
  deriving DecidableEq

/-- Tests whether a registration is a `window` `scroll` listener. -/
def Reg.isScroll : Reg → Bool
  | Reg.windowScroll => true
  | _ => false

/-- Listener registrations performed by `Navigation.init` (src/main.js:119-146):
one unconditional `window` scroll listener, a toggle click listener when the
toggle element exists, one click listener per nav link, and one `document`
click listener for outside clicks. -/
def Navigation.initRegs (menuTogglePresent : Bool) (numLinks : Nat) : List Reg :=
  Reg.windowScroll ::
    ((if menuTogglePresent then [Reg.elementClick "menuToggle"] else []) ++
      List.replicate numLinks (Reg.elementClick "navLink") ++
      [Reg.documentClick])

/-- Listener registrations performed by `BackToTop.init` (src/main.js:244-249):
nothing when the button is absent (early return), otherwise a `window` scroll
listener and a click listener on the button. -/
def BackToTop.initRegs (buttonPresent : Bool) : List Reg :=
  if buttonPresent then [Reg.windowScroll, Reg.elementClick "backToTop"] else []

/-- Listener registrations performed by `ParallaxEffect.init`
(src/main.js:350-361): nothing when the hero image is absent (early return),
otherwise one debounced `window` scroll listener. -/
def ParallaxEffect.initRegs (heroPresent : Bool) : List Reg :=
  if heroPresent then [Reg.windowScroll] else []

/-- Number of `window` scroll listeners in a registration list. -/
def scrollRegCount (regs : List Reg) : Nat :=
  (regs.filter Reg.isScroll).length

/-- All registrations made by the three scroll-consuming components
(Navigation, BackToTop, ParallaxEffect) during initialization. -/
def allScrollConsumersRegs (mt : Bool) (nl : Nat) (bt hero : Bool) : List Reg :=
  Navigation.initRegs mt nl ++ BackToTop.initRegs bt ++ ParallaxEffect.initRegs hero

/-- State read and written by `Navigation.handleScroll`: the navbar's class
list when the element exists (`getElementById` may have returned `null`), and
the `lastScrollY` field. -/
structure NavScrollState where
  navbar : Option (List String)
  lastScrollY : Int
  deriving DecidableEq

/-- `Navigation.handleScroll` (src/main.js:148-158): reads the current scroll
offset, then adds the `scrolled` class when it exceeds 100 and removes it
otherwise, then stores the offset in `lastScrollY`. When the navbar element is
absent, `this.navbar.classList` throws a TypeError before any update. -/
def Navigation.handleScroll (s : NavScrollState) (currentScrollY : Int) :
    Except String NavScrollState :=
  match s.navbar with
  | none => Except.error "TypeError: navbar is null"
  | some cs =>
    Except.ok
      { navbar := some (if currentScrollY > 100 then classAdd cs "scrolled"
                        else classRemove cs "scrolled"),
        lastScrollY := currentScrollY }

/-- One entry of an IntersectionObserver callback batch: the target element
(identified by an index) and its `isIntersecting` flag. -/
structure IntersectionEntry where
  target : Nat
  isIntersecting : Bool
  deriving DecidableEq

/-- State of `StatsCounter`: the `animated` set (a JS `Set`, modelled by a
list queried by membership) and, for specification purposes, the list of
`animateCounter` invocations in the order they were started. -/
structure StatsState where
  animated : List Nat
  started : List Nat
  deriving DecidableEq

/-- One entry of `StatsCounter.handleIntersection` (src/main.js:205-212): when
the entry is intersecting and its target is not in the `animated` set, the
counter animation starts and the target joins the set; otherwise nothing. -/
def StatsCounter.handleEntry (st : StatsState) (e : IntersectionEntry) : StatsState :=
  if e.isIntersecting ∧ e.target ∉ st.animated then
    { animated := e.target :: st.animated, started := st.started ++ [e.target] }
  else st

/-- `StatsCounter.handleIntersection` (src/main.js:205-212): `entries.forEach`
over one callback batch. -/
def StatsCounter.handleIntersection (st : StatsState) (entries : List IntersectionEntry) :
    StatsState :=
  entries.foldl StatsCounter.handleEntry st

/-- Processes any sequence of IntersectionObserver callback batches starting
from the fresh state built in the constructor (src/main.js:183-193). -/
def StatsCounter.run (batches : List (List IntersectionEntry)) : StatsState :=
  batches.foldl StatsCounter.handleIntersection { animated := [], started := [] }

/-- `StatsCounter.animateCounter`'s inner loop `updateCounter`
(src/main.js:220-228): add the increment to the running total; while the total
is below the target, display `Math.floor(total)` and schedule another frame;
otherwise display the target itself and stop. Arithmetic is exact (`ℚ`); the
recursion is indexed by a fuel bounding the number of animation frames, large
enough that the loop terminates before the fuel runs out. The returned list is
the sequence of displayed values (`element.textContent` writes). -/
def updateCounter (target : ℤ) (increment : ℚ) : ℚ → Nat → List ℤ
  | _, 0 => []
  | current, fuel + 1 =>
    if current + increment < (target : ℚ) then
      ⌊current + increment⌋ :: updateCounter target increment (current + increment) fuel
    else [target]

/-- `StatsCounter.animateCounter` (src/main.js:214-231): duration 2000 ms,
increment `target / (2000 / 16)`, running total starting at 0. -/
def animateCounter (target : ℤ) (fuel : Nat) : List ℤ :=
  updateCounter target ((target : ℚ) / ((2000 : ℚ) / 16)) 0 fuel

/-- One delivered IntersectionObserver entry for a reveal-on-scroll element,
`ScrollAnimations.handleIntersection` (src/main.js:95-102): when intersecting,
add the `visible` class; otherwise leave the class list untouched (there is no
removal branch). -/
def ScrollAnimations.handleEntry (classes : List String) (isIntersecting : Bool) :
    List String :=
  if isIntersecting then classAdd classes "visible" else classes

/-- The sequence of intersection notifications delivered for one
reveal-on-scroll element over the page lifetime. -/
def ScrollAnimations.processEntries (classes : List String) (tr : List Bool) : List String :=
  tr.foldl ScrollAnimations.handleEntry classes

/-- Mobile menu state: the `active` class on the toggle, the `active` class on
the menu, and `document.body.style.overflow`. -/
structure MenuState where
  toggleActive : Bool
  menuActive : Bool
  bodyOverflow : String
  deriving DecidableEq

/-- `Navigation.toggleMenu` (src/main.js:160-170): toggles `active` on both the
toggle and the menu, then locks body overflow exactly when the menu ends up
active. -/
def Navigation.toggleMenu (s : MenuState) : MenuState :=
  { toggleActive := !s.toggleActive,
    menuActive := !s.menuActive,
    bodyOverflow := if !s.menuActive then "hidden" else "" }

/-- `Navigation.closeMenu` (src/main.js:172-176): removes `active` from both
elements and restores body overflow. -/
def Navigation.closeMenu (_ : MenuState) : MenuState :=
  { toggleActive := false, menuActive := false, bodyOverflow := "" }

/-- The nav-link click handler (src/main.js:129-135): closes the menu exactly
when `window.innerWidth <= 768`, reading the width at event time. -/
def Navigation.linkClick (width : Nat) (s : MenuState) : MenuState :=
  if width ≤ 768 then Navigation.closeMenu s else s

/-- An element with the layout fields read by `SmoothScroll.handleClick`. -/
structure PageElem where
  offsetTop : Int
  offsetHeight : Int
  deriving DecidableEq

/-- Observable outcome of one anchor click: whether `preventDefault` ran,
the `window.scrollTo` top argument when a scroll was issued, and whether the
handler threw. -/
structure ClickOutcome where
  prevented : Bool
  scrolledTo : Option Int
  errored : Bool
  deriving DecidableEq

/-- `SmoothScroll.handleClick` (src/main.js:283-304): an href of exactly `#`
returns before `preventDefault`; any other href suppresses default navigation,
resolves `href.substring(1)` by id, and scrolls to
`target.offsetTop - navbar.offsetHeight` when the target exists (throwing if
the navbar element is absent at that point); a missing target id scrolls
nowhere. -/
def SmoothScroll.handleClick (href : String) (getElementById : String → Option PageElem) :
    ClickOutcome :=
  if href = "#" then { prevented := false, scrolledTo := none, errored := false }
  else
    match getElementById (String.drop href 1) with
    | some t =>
      match getElementById "navbar" with
      | some nb =>
        { prevented := true, scrolledTo := some (t.offsetTop - nb.offsetHeight),
          errored := false }
      | none => { prevented := true, scrolledTo := none, errored := true }
    | none => { prevented := true, scrolledTo := none, errored := false }

/-! Helper lemmas about the class-list primitives. -/

theorem mem_classAdd_self (cs : List String) (c : String) : c ∈ classAdd cs c := by
  unfold classAdd
  split
  · assumption
  · exact List.mem_append_right _ (List.mem_singleton_self c)

theorem mem_classAdd_of_mem (cs : List String) (c a : String) (h : a ∈ cs) :
    a ∈ classAdd cs c := by
  unfold classAdd
  split
  · exact h
  · exact List.mem_append_left _ h

theorem not_mem_classRemove_self (cs : List String) (c : String) : c ∉ classRemove cs c := by
  unfold classRemove
  intro h
  have hb := (List.mem_filter.mp h).2
  simp at hb

/-! Lemmas about the counter animation loop. -/

theorem updateCounter_le (target : ℤ) (increment : ℚ) :
    ∀ (fuel : Nat) (current : ℚ) (x : ℤ),
      x ∈ updateCounter target increment current fuel → x ≤ target := by
  intro fuel
  induction fuel with
  | zero => intro current x hx; simp [updateCounter] at hx
  | succ f ih =>
    intro current x hx
    rw [updateCounter] at hx
    by_cases h : current + increment < (target : ℚ)
    · rw [if_pos h] at hx
      rcases List.mem_cons.mp hx with h1 | h2
      · exact h1 ▸ le_of_lt (Int.floor_lt.mpr h)
      · exact ih _ x h2
    · rw [if_neg h] at hx
      simp at hx
      exact le_of_eq hx

theorem updateCounter_head_ge (target : ℤ) (increment : ℚ) (h0 : 0 ≤ increment)
    (fuel : Nat) (current : ℚ) (hc : current < (target : ℚ)) (y : ℤ)
    (hy : (updateCounter target increment current fuel).head? = some y) :
    ⌊current⌋ ≤ y := by
  cases fuel with
  | zero => simp [updateCounter] at hy
  | succ f =>
    rw [updateCounter] at hy
    by_cases h : current + increment < (target : ℚ)
    · rw [if_pos h] at hy
      simp at hy
      exact hy ▸ Int.floor_le_floor (by linarith)
    · rw [if_neg h] at hy
      simp at hy
      exact hy ▸ le_of_lt (Int.floor_lt.mpr hc)

theorem updateCounter_chain (target : ℤ) (increment : ℚ) (h0 : 0 ≤ increment) :
    ∀ (fuel : Nat) (current : ℚ),
      List.Chain' (fun a b => a ≤ b) (updateCounter target increment current fuel) := by
  intro fuel
  induction fuel with
  | zero => intro current; simp [updateCounter]
  | succ f ih =>
    intro current
    rw [updateCounter]
    by_cases h : current + increment < (target : ℚ)
    · rw [if_pos h]
      refine List.chain'_cons'.mpr ⟨?_, ih _⟩
      intro y hy
      exact updateCounter_head_ge target increment h0 f _ h y hy
    · rw [if_neg h]
      simp

theorem updateCounter_getLast (target : ℤ) (increment : ℚ) (_hpos : 0 < increment) :
    ∀ (fuel : Nat) (current : ℚ),
      (target : ℚ) ≤ current + fuel * increment → 1 ≤ fuel →
      (updateCounter target increment current fuel).getLast? = some target := by
  intro fuel
  induction fuel with
  | zero => intro current _ h1; omega
  | succ f ih =>
    intro current hbound _
    rw [updateCounter]
    by_cases h : current + increment < (target : ℚ)
    · rw [if_pos h]
      have hf : 1 ≤ f := by
        by_contra hf0
        have hfz : f = 0 := by omega
        subst hfz
        push_cast at hbound
        simp at hbound
        linarith
      have hb2 : (target : ℚ) ≤ (current + increment) + f * increment := by
        push_cast at hbound
        nlinarith [hbound]
      have hlast := ih (current + increment) hb2 hf
      have hne : updateCounter target increment (current + increment) f ≠ [] := by
        intro he
        rw [he] at hlast
        simp at hlast
      obtain ⟨b, t, hbt⟩ := List.exists_cons_of_ne_nil hne
      rw [hbt] at hlast ⊢
      rw [List.getLast?_cons_cons]
      exact hlast
    · rw [if_neg h]
      rfl

/-- C1: for a stats counter whose target is 100, the sequence of displayed
values is non-decreasing, never exceeds 100, and ends at exactly 100: each
frame adds the fixed increment `100 / (2000/16)` to the running total,
displays its floor while the total is below the target, and displays the exact
target on the frame where the total reaches or exceeds it. -/
theorem counter_animation_target_100 :
    List.Chain' (fun a b => a ≤ b) (animateCounter 100 200) ∧
    (animateCounter 100 200).all (fun x => decide (x ≤ 100)) = true ∧
    (animateCounter 100 200).getLast? = some 100 := by
  refine ⟨?_, ?_, ?_⟩
  · unfold animateCounter
    exact updateCounter_chain 100 _ (by norm_num) 200 0
  · rw [List.all_eq_true]
    intro x hx
    simp only [decide_eq_true_eq]
    unfold animateCounter at hx
    exact updateCounter_le 100 _ 200 0 x hx
  · unfold animateCounter
    refine updateCounter_getLast 100 _ (by norm_num) 200 0 (by push_cast; norm_num) (by norm_num)

/-- C2 counterexample: with no IntersectionObserver and one stats-counter
element, `StatsCounter.init` starts no animation at all — element 0 is not
animated, contradicting "every stats-counter element is animated". -/
theorem stats_no_observer_nothing_animated :
    (StatsCounter.init false 1).animationsStarted = [] ∧
    0 ∉ (StatsCounter.init false 1).animationsStarted ∧
    (StatsCounter.init false 1).observed = [] := by
  decide

/-- C2 amended: when the platform lacks IntersectionObserver, `LazyLoader.init`
invokes `loadImage` on every managed image immediately (so every image with a
non-empty deferred source has its preload started), but `StatsCounter.init`
does nothing: no stat element is observed or animated. -/
theorem degraded_mode_loads_images_skips_counters (imgs : List LazyImg) (ok : Bool) (n : Nat) :
    LazyLoader.init false imgs ok = imgs.map (fun i => LazyLoader.loadImage i ok) ∧
    (∀ img ∈ imgs, ∀ s, img.dataSrc = some s → s ≠ "" →
      (LazyLoader.loadImage img ok).2 = true) ∧
    StatsCounter.init false n = { observed := [], animationsStarted := [] } := by
  refine ⟨rfl, ?_, rfl⟩
  intro img _ s hs hne
  unfold LazyLoader.loadImage
  rw [hs]
  simp only [if_neg hne]
  cases ok <;> simp

theorem degraded_mode_loads_images_skips_counters_witness :
    (LazyLoader.loadImage { dataSrc := some "a.png", src := none, classes := [] } true).2 =
      true :=
  (degraded_mode_loads_images_skips_counters
      [{ dataSrc := some "a.png", src := none, classes := [] }] true 0).2.1
    { dataSrc := some "a.png", src := none, classes := [] }
    (List.mem_singleton_self _) "a.png" rfl (by decide)

/-- C3 counterexample: with the menu toggle, back-to-top button and hero image
all present, initialization registers three underlying `window` scroll
listeners, not one. -/
theorem three_scroll_listeners_registered :
    scrollRegCount (allScrollConsumersRegs true 0 true true) = 3 ∧
    scrollRegCount (allScrollConsumersRegs true 0 true true) ≠ 1 := by
  decide

theorem filter_isScroll_replicate_elementClick (n : Nat) (id : String) :
    (List.replicate n (Reg.elementClick id)).filter Reg.isScroll = [] := by
  induction n with
  | zero => rfl
  | succ k ih =>
    rw [List.replicate_succ, List.filter_cons]
    simp only [Reg.isScroll, if_neg (by simp : ¬(false = true))]
    exact ih

/-- C3 amended: each scroll-consuming component registers its own underlying
scroll listener rather than sharing one: Navigation always registers one, and
BackToTop and ParallaxEffect each register one exactly when their element is
present — N scroll consumers yield N listeners (three when all elements
exist), never a single fanned-out listener. -/
theorem scroll_listener_per_component (mt : Bool) (nl : Nat) (bt hero : Bool) :
    scrollRegCount (allScrollConsumersRegs mt nl bt hero) =
      1 + (if bt then 1 else 0) + (if hero then 1 else 0) := by
  unfold allScrollConsumersRegs scrollRegCount Navigation.initRegs BackToTop.initRegs
    ParallaxEffect.initRegs
  cases mt <;> cases bt <;> cases hero <;>
    simp [List.filter_append, List.filter_cons, Reg.isScroll,
      filter_isScroll_replicate_elementClick]

/-- C4 counterexample: when the navbar element is absent, the scroll handler
that `Navigation.init` registered unconditionally throws a TypeError on the
very first scroll event — the component does not degrade to a silent no-op. -/
theorem navbar_missing_scroll_error :
    Navigation.handleScroll { navbar := none, lastScrollY := 0 } 150 =
      Except.error "TypeError: navbar is null" := rfl

/-- C4 amended: BackToTop and ParallaxEffect do become silent no-ops when
their optional element is absent (their `init` registers no listener at all),
but Navigation does not: it always registers its scroll listener, and when the
navbar element is absent every delivered scroll event makes `handleScroll`
raise a TypeError instead of a no-op. -/
theorem missing_element_noop_except_navigation (s : NavScrollState) (y : Int) :
    BackToTop.initRegs false = [] ∧
    ParallaxEffect.initRegs false = [] ∧
    (s.navbar = none →
      Navigation.handleScroll s y = Except.error "TypeError: navbar is null") := by
  refine ⟨rfl, rfl, ?_⟩
  intro h
  unfold Navigation.handleScroll
  rw [h]

theorem missing_element_noop_except_navigation_witness :
    Navigation.handleScroll { navbar := none, lastScrollY := 5 } 7 =
      Except.error "TypeError: navbar is null" :=
  (missing_element_noop_except_navigation { navbar := none, lastScrollY := 5 } 7).2.2 rfl

/-! Invariant lemmas for the stats-counter animated set. -/

theorem handleEntry_inv (st : StatsState) (e : IntersectionEntry)
    (h : st.started.Nodup ∧ ∀ x ∈ st.started, x ∈ st.animated) :
    (StatsCounter.handleEntry st e).started.Nodup ∧
      ∀ x ∈ (StatsCounter.handleEntry st e).started,
        x ∈ (StatsCounter.handleEntry st e).animated := by
  unfold StatsCounter.handleEntry
  split
  case isTrue hc =>
    refine ⟨?_, ?_⟩
    · simp only [List.nodup_append, List.nodup_cons, List.nodup_nil]
      refine ⟨h.1, ⟨by simp, trivial⟩, ?_⟩
      intro a ha hb
      simp at hb
      exact hc.2 (hb ▸ h.2 a ha)
    · intro x hx
      rcases List.mem_append.mp hx with h1 | h2
      · exact List.mem_cons_of_mem _ (h.2 x h1)
      · simp at h2
        simp [h2]
  case isFalse => exact h

theorem handleIntersection_inv (entries : List IntersectionEntry) :
    ∀ st : StatsState,
      (st.started.Nodup ∧ ∀ x ∈ st.started, x ∈ st.animated) →
      ((StatsCounter.handleIntersection st entries).started.Nodup ∧
        ∀ x ∈ (StatsCounter.handleIntersection st entries).started,
          x ∈ (StatsCounter.handleIntersection st entries).animated) := by
  induction entries with
  | nil => intro st h; exact h
  | cons e es ih =>
    intro st h
    show ((es.foldl StatsCounter.handleEntry (StatsCounter.handleEntry st e)).started.Nodup ∧ _)
    exact ih (StatsCounter.handleEntry st e) (handleEntry_inv st e h)

theorem run_inv (batches : List (List IntersectionEntry)) :
    ∀ st : StatsState,
      (st.started.Nodup ∧ ∀ x ∈ st.started, x ∈ st.animated) →
      ((batches.foldl StatsCounter.handleIntersection st).started.Nodup ∧
        ∀ x ∈ (batches.foldl StatsCounter.handleIntersection st).started,
          x ∈ (batches.foldl StatsCounter.handleIntersection st).animated) := by
  induction batches with
  | nil => intro st h; exact h
  | cons b bs ih =>
    intro st h
    rw [List.foldl_cons]
    exact ih (StatsCounter.handleIntersection st b) (handleIntersection_inv b st h)

/-- C5: over any sequence of intersection callback batches, each stats-counter
element has its animation started at most once — the membership check against
the `animated` set before starting, together with insertion into the set when
starting, makes the list of started animations duplicate-free. -/
theorem stats_counter_animates_at_most_once (batches : List (List IntersectionEntry)) :
    (StatsCounter.run batches).started.Nodup ∧
    ∀ t : Nat, (StatsCounter.run batches).started.count t ≤ 1 := by
  have h := run_inv batches { animated := [], started := [] } ⟨List.nodup_nil, by simp⟩
  exact ⟨h.1, fun t => List.nodup_iff_count_le_one.mp h.1 t⟩

/-- C6: a reveal-on-scroll element gains the `visible` class on a visibility
entry, and once the class is present no later sequence of intersection
notifications (intersecting or not) ever removes it. -/
theorem reveal_visible_flag_permanent (classes : List String) (tr : List Bool) :
    "visible" ∈ ScrollAnimations.handleEntry classes true ∧
    ("visible" ∈ classes → "visible" ∈ ScrollAnimations.processEntries classes tr) := by
  constructor
  · unfold ScrollAnimations.handleEntry
    simp only [if_pos trivial]
    exact mem_classAdd_self classes "visible"
  · intro h
    induction tr generalizing classes with
    | nil => exact h
    | cons b bs ih =>
      show "visible" ∈ bs.foldl ScrollAnimations.handleEntry
        (ScrollAnimations.handleEntry classes b)
      apply ih
      unfold ScrollAnimations.handleEntry
      split
      · exact mem_classAdd_of_mem classes "visible" "visible" h
      · exact h

theorem reveal_visible_flag_permanent_witness :
    "visible" ∈ ScrollAnimations.processEntries ["visible"] [false, true, false] :=
  (reveal_visible_flag_permanent ["visible"] [false, true, false]).2
    (List.mem_singleton_self "visible")

/-- C7: after any delivered scroll event the navbar carries the `scrolled`
class exactly when the delivered vertical offset is strictly greater than 100,
independently of the previous class list — so a sequence that goes above 100
and then back to 100 or below sets and then clears the flag, with no
hysteresis. -/
theorem navbar_scrolled_iff_above_100 (cs : List String) (lastY y : Int) :
    ∃ cs2 : List String,
      Navigation.handleScroll { navbar := some cs, lastScrollY := lastY } y =
        Except.ok { navbar := some cs2, lastScrollY := y } ∧
      ("scrolled" ∈ cs2 ↔ 100 < y) := by
  by_cases h : 100 < y
  · refine ⟨classAdd cs "scrolled", ?_, ?_⟩
    · simp [Navigation.handleScroll, h]
    · exact ⟨fun _ => h, fun _ => mem_classAdd_self cs "scrolled"⟩
  · refine ⟨classRemove cs "scrolled", ?_, ?_⟩
    · simp [Navigation.handleScroll, h]
    · exact ⟨fun hm => absurd hm (not_mem_classRemove_self cs "scrolled"),
        fun hy => absurd hy h⟩

/-- C8: mobile menu state machine — toggling from Closed yields Open with body
scroll locked (`overflow: hidden`); a menu-link click at viewport width at
most 768 yields Closed with scroll restored; a menu-link click at a width
above 768 leaves the state untouched, the width being read at event time. -/
theorem menu_state_machine (s : MenuState) (w : Nat) :
    (s.menuActive = false →
      Navigation.toggleMenu s =
        { toggleActive := !s.toggleActive, menuActive := true, bodyOverflow := "hidden" }) ∧
    (w ≤ 768 →
      Navigation.linkClick w s =
        { toggleActive := false, menuActive := false, bodyOverflow := "" }) ∧
    (768 < w → Navigation.linkClick w s = s) := by
  refine ⟨?_, ?_, ?_⟩
  · intro h
    unfold Navigation.toggleMenu
    rw [h]
    rfl
  · intro h
    unfold Navigation.linkClick
    rw [if_pos h]
    rfl
  · intro h
    unfold Navigation.linkClick
    rw [if_neg (by omega)]

theorem menu_state_machine_witness :
    Navigation.toggleMenu { toggleActive := false, menuActive := false, bodyOverflow := "" } =
      { toggleActive := true, menuActive := true, bodyOverflow := "hidden" } ∧
    Navigation.linkClick 500 { toggleActive := true, menuActive := true, bodyOverflow := "hidden" } =
      { toggleActive := false, menuActive := false, bodyOverflow := "" } ∧
    Navigation.linkClick 1200 { toggleActive := true, menuActive := true, bodyOverflow := "hidden" } =
      { toggleActive := true, menuActive := true, bodyOverflow := "hidden" } :=
  ⟨(menu_state_machine { toggleActive := false, menuActive := false, bodyOverflow := "" } 500).1
      rfl,
   (menu_state_machine { toggleActive := true, menuActive := true, bodyOverflow := "hidden" } 500).2.1
      (by omega),
   (menu_state_machine { toggleActive := true, menuActive := true, bodyOverflow := "hidden" } 1200).2.2
      (by omega)⟩

/-- C9: a click on a link whose href is exactly `#` leaves default navigation
untouched and scrolls nowhere; a click on any other in-page anchor suppresses
default navigation; and when the target id does not exist in the document no
scroll call is made (and no error is raised) while default navigation stays
suppressed. -/
theorem smooth_anchor_click (href : String) (getElementById : String → Option PageElem) :
    SmoothScroll.handleClick "#" getElementById =
      { prevented := false, scrolledTo := none, errored := false } ∧
    (href ≠ "#" → (SmoothScroll.handleClick href getElementById).prevented = true) ∧
    (href ≠ "#" → getElementById (String.drop href 1) = none →
      SmoothScroll.handleClick href getElementById =
        { prevented := true, scrolledTo := none, errored := false }) := by
  refine ⟨?_, ?_, ?_⟩
  · unfold SmoothScroll.handleClick
    rw [if_pos rfl]
  · intro h
    unfold SmoothScroll.handleClick
    rw [if_neg h]
    cases getElementById (String.drop href 1) with
    | none => rfl
    | some t =>
      cases getElementById "navbar" with
      | none => rfl
      | some nb => rfl
  · intro h h2
    unfold SmoothScroll.handleClick
    rw [if_neg h, h2]

theorem smooth_anchor_click_witness :
    SmoothScroll.handleClick "#missing-id" (fun _ => none) =
      { prevented := true, scrolledTo := none, errored := false } :=
  (smooth_anchor_click "#missing-id" (fun _ => none)).2.2 (by decide) rfl

/-- C10: for a managed lazy image whose `data-src` attribute is absent,
`loadImage` is a complete no-op — no preload is started and the image state
(src, classes, attributes) is unchanged, whatever a preload would have done. -/
theorem load_image_missing_datasrc (img : LazyImg) (ok : Bool) (h : img.dataSrc = none) :
    LazyLoader.loadImage img ok = (img, false) := by
  unfold LazyLoader.loadImage
  rw [h]

theorem load_image_missing_datasrc_witness :
    LazyLoader.loadImage { dataSrc := none, src := some "x.png", classes := ["lazy-img"] }
        true =
      ({ dataSrc := none, src := some "x.png", classes := ["lazy-img"] }, false) :=
  load_image_missing_datasrc
    { dataSrc := none, src := some "x.png", classes := ["lazy-img"] } true rfl
